import Mathlib

/-!
Shallow embedding of the batch OCR scripts
(`gdrive_batch_ocr.py`, `batch_ocr.py`, `check_pdf_searchable.py`,
`mistral_ocr.py`) and proofs about the batch pipeline, the tallying of
per-item outcomes, the searchable-text heuristic and the CLI exit codes.

External effects (Google Drive download/upload, the Mistral network call,
the pypdfium2 parser) are modelled as injected capabilities returning
`Except String _`: a Python exception raised by the call corresponds to
`.error description`.  Machine floats (`0.001` in the cost estimate) are
modelled as rationals.
-/

set_option linter.unusedVariables false

namespace BatchOcr

/-- Raw bytes of a PDF document, as downloaded or read from disk. -/
abbrev Bytes := List Nat

/-- One input unit, as produced by `find_pdfs` in `gdrive_batch_ocr.py`:
a display name, an opaque source handle (Drive file id) and an optional
size hint. -/
structure DocumentDescriptor where
  name : String
  id : String
  sizeHint : Option Nat
deriving DecidableEq

/-- The per-item result triple `(file_name, success, message)` returned by
`process_single_pdf` in `gdrive_batch_ocr.py`. -/
abbrev Result := String × Bool × String

/-- The external collaborators of `process_single_pdf`, injected as
capabilities: `download_file`, `is_searchable_pdf` (which catches its own
exceptions and returns a plain bool), `ocr_pdf_mistral` (returning the
markdown and the extracted images) and the store step (local save or the
`create_drive_folder`/`upload_to_drive` sequence). -/
structure Capabilities where
  download : DocumentDescriptor → Except String Bytes
  checkSearchable : Bytes → Bool
  ocr : Bytes → Except String (String × List (String × String))
  store : DocumentDescriptor → String → List (String × String) → Except String String

/-- `process_single_pdf` of `gdrive_batch_ocr.py` (lines 219-301): download,
pre-check, OCR, store; every exception along the way is caught by the
enclosing `try`/`except` and mapped to `(file_name, False, "Error: " + str(e))`. -/
def process_single_pdf (caps : Capabilities) (pdf : DocumentDescriptor) : Result :=
  match caps.download pdf with
  | .error e => (pdf.name, false, "Error: " ++ e)
  | .ok pdfBytes =>
    if caps.checkSearchable pdfBytes then
      (pdf.name, false, "Already searchable (skipped)")
    else
      match caps.ocr pdfBytes with
      | .error e => (pdf.name, false, "Error: " ++ e)
      | .ok (markdown, images) =>
        match caps.store pdf markdown images with
        | .error e => (pdf.name, false, "Error: " ++ e)
        | .ok msg => (pdf.name, true, msg)

/-- Number of `ocr_pdf_mistral` invocations performed by
`process_single_pdf` for one descriptor: exactly one when the download
succeeds and the searchable pre-check is false, zero otherwise. -/
def process_single_pdf_ocr_calls (caps : Capabilities) (pdf : DocumentDescriptor) : Nat :=
  match caps.download pdf with
  | .error _ => 0
  | .ok pdfBytes => if caps.checkSearchable pdfBytes then 0 else 1

/-- Number of store-step invocations performed by `process_single_pdf` for
one descriptor: exactly one when download and OCR both succeed and the
pre-check is false. -/
def process_single_pdf_store_calls (caps : Capabilities) (pdf : DocumentDescriptor) : Nat :=
  match caps.download pdf with
  | .error _ => 0
  | .ok pdfBytes =>
    if caps.checkSearchable pdfBytes then 0
    else
      match caps.ocr pdfBytes with
      | .error _ => 0
      | .ok _ => 1

/-- Substring containment on character lists, used to model Python's
`"skipped" in message.lower()`. -/
def containsSub (pat : List Char) : List Char → Bool
  | [] => pat.isEmpty
  | c :: rest => pat.isPrefixOf (c :: rest) || containsSub pat rest

/-- Python's `"skipped" in message.lower()` from the tally loop of
`batch_process` (line 343 of `gdrive_batch_ocr.py`). -/
def messageHasSkipped (msg : String) : Bool :=
  containsSub "skipped".toList (msg.toList.map Char.toLower)

/-- The three counters accumulated by the result loop of `batch_process`. -/
structure Counts where
  success : Nat
  skip : Nat
  error : Nat
deriving DecidableEq

/-- One iteration of the result loop of `batch_process`
(`gdrive_batch_ocr.py` lines 334-346): `if success: success_count += 1
elif "skipped" in message.lower(): skip_count += 1 else: error_count += 1`. -/
def tallyStep (acc : Counts) (r : Result) : Counts :=
  if r.2.1 then { acc with success := acc.success + 1 }
  else if messageHasSkipped r.2.2 then { acc with skip := acc.skip + 1 }
  else { acc with error := acc.error + 1 }

/-- The counters after the result loop of `batch_process` has consumed a
list of per-item results (in the order `as_completed` delivered them). -/
def tally (rs : List Result) : Counts := rs.foldl tallyStep ⟨0, 0, 0⟩

/-- Classification predicate: the result took the `success` branch. -/
def isSucc (r : Result) : Bool := r.2.1

/-- Classification predicate: the result took the `skip` branch. -/
def isSkipR (r : Result) : Bool := !r.2.1 && messageHasSkipped r.2.2

/-- Classification predicate: the result took the `error` branch. -/
def isErrR (r : Result) : Bool := !r.2.1 && !messageHasSkipped r.2.2

/-- The deterministic outcome each submitted future computes: in
`batch_process`, one `process_single_pdf` future is submitted per element
of `pdf_files`, in list order. -/
def scheduledOutcomes (caps : Capabilities) (pdfs : List DocumentDescriptor) : List Result :=
  pdfs.map (process_single_pdf caps)

/-- `res` is a possible sequence of results observed by the
`as_completed` loop: every submitted future yields its result exactly
once, in some completion order. -/
def IsCompletionOrder (caps : Capabilities) (pdfs : List DocumentDescriptor)
    (res : List Result) : Prop :=
  res.Perm (scheduledOutcomes caps pdfs)

/-- Cost estimate printed by `batch_process`: `success_count * 0.001`,
with the float literal modelled as the rational 1/1000. -/
def estimatedCost (c : Counts) : ℚ := (c.success : ℚ) * (1 / 1000)

lemma tally_foldl (rs : List Result) (acc : Counts) :
    rs.foldl tallyStep acc =
      ⟨acc.success + rs.countP isSucc, acc.skip + rs.countP isSkipR,
        acc.error + rs.countP isErrR⟩ := by
  induction rs generalizing acc with
  | nil => simp [List.countP_nil]
  | cons r rs ih =>
    rcases acc with ⟨s, k, e⟩
    rw [List.foldl_cons, ih]
    by_cases h1 : r.2.1 = true
    · simp [tallyStep, h1, List.countP_cons, isSucc, isSkipR, isErrR, Nat.add_assoc,
        Nat.add_comm 1]
    · by_cases h2 : messageHasSkipped r.2.2 = true
      · simp [tallyStep, h1, h2, List.countP_cons, isSucc, isSkipR, isErrR,
          Nat.add_assoc, Nat.add_comm 1]
      · simp [tallyStep, h1, h2, List.countP_cons, isSucc, isSkipR, isErrR,
          Nat.add_assoc, Nat.add_comm 1]

lemma tally_eq_countP (rs : List Result) :
    tally rs = ⟨rs.countP isSucc, rs.countP isSkipR, rs.countP isErrR⟩ := by
  simpa using tally_foldl rs ⟨0, 0, 0⟩

lemma tally_perm {rs rs' : List Result} (h : rs.Perm rs') : tally rs = tally rs' := by
  rw [tally_eq_countP, tally_eq_countP,
    h.countP_eq isSucc, h.countP_eq isSkipR, h.countP_eq isErrR]

lemma countP_three_split (rs : List Result) :
    rs.countP isSucc + rs.countP isSkipR + rs.countP isErrR = rs.length := by
  induction rs with
  | nil => simp
  | cons r rs ih =>
    by_cases h1 : r.2.1 = true
    · simp [List.countP_cons, isSucc, isSkipR, isErrR, h1]; omega
    · by_cases h2 : messageHasSkipped r.2.2 = true
      · simp [List.countP_cons, isSucc, isSkipR, isErrR, h1, h2]; omega
      · simp [List.countP_cons, isSucc, isSkipR, isErrR, h1, h2]; omega

lemma tally_sum (rs : List Result) :
    (tally rs).success + (tally rs).skip + (tally rs).error = rs.length := by
  rw [tally_eq_countP]
  exact countP_three_split rs

/-- Sample fixture: a capability set whose behaviour is steered by the
descriptor id (normal success, failing download, already-searchable). -/
def sampleCaps : Capabilities where
  download := fun d =>
    if d.id = "bad" then .error "download failed"
    else if d.id = "searchable" then .ok []
    else if d.id = "ocrfail" then .ok [9]
    else .ok [1, 2, 3]
  checkSearchable := fun b => b.isEmpty
  ocr := fun b => if b = [9] then .error "ocr down" else .ok ("# md", [("img0.jpeg", "QUJD")])
  store := fun _ _ _ => .ok "4 chars, 1 images → Drive"

/-- Sample descriptor processed successfully by `sampleCaps`. -/
def descOk : DocumentDescriptor := ⟨"a.pdf", "ok1", some 10⟩

/-- Sample descriptor whose download fails under `sampleCaps`. -/
def descBad : DocumentDescriptor := ⟨"b.pdf", "bad", none⟩

/-- Sample descriptor that is already searchable under `sampleCaps`. -/
def descSearchable : DocumentDescriptor := ⟨"c.pdf", "searchable", some 3⟩

/-- Sample batch of three descriptors. -/
def samplePdfs : List DocumentDescriptor := [descOk, descBad, descSearchable]

/-- C1: when the run completes without cancellation, every descriptor yields
exactly one outcome — the result list observed by the completion loop is a
permutation of the per-descriptor outcomes, has the same length as the
descriptor list, and the three tally counters sum to that length. -/
theorem batch_outcome_conservation (caps : Capabilities) (pdfs : List DocumentDescriptor)
    (res : List Result) (h : IsCompletionOrder caps pdfs res) :
    res.length = pdfs.length ∧
    (tally res).success + (tally res).skip + (tally res).error = pdfs.length := by
  have hlen : res.length = pdfs.length := by
    simpa [scheduledOutcomes] using h.length_eq
  exact ⟨hlen, by rw [tally_sum]; exact hlen⟩

/-- Witness for C1 on the three-descriptor sample batch. -/
theorem batch_outcome_conservation_witness :
    (tally (scheduledOutcomes sampleCaps samplePdfs)).success +
      (tally (scheduledOutcomes sampleCaps samplePdfs)).skip +
      (tally (scheduledOutcomes sampleCaps samplePdfs)).error = samplePdfs.length :=
  (batch_outcome_conservation sampleCaps samplePdfs
    (scheduledOutcomes sampleCaps samplePdfs) (List.Perm.refl _)).2

/-- C2: a failure in the download/pre-check stage, the OCR call or the store
call for one descriptor is captured as a failed result carrying the
underlying description (never propagated), and the outcome of every other
descriptor in the batch is exactly what it would be in any surrounding
batch. -/
theorem per_item_failure_isolation (caps : Capabilities) (d : DocumentDescriptor) (e : String) :
    (caps.download d = .error e →
      process_single_pdf caps d = (d.name, false, "Error: " ++ e)) ∧
    (∀ b, caps.download d = .ok b → caps.checkSearchable b = false →
      caps.ocr b = .error e →
      process_single_pdf caps d = (d.name, false, "Error: " ++ e)) ∧
    (∀ b md imgs, caps.download d = .ok b → caps.checkSearchable b = false →
      caps.ocr b = .ok (md, imgs) → caps.store d md imgs = .error e →
      process_single_pdf caps d = (d.name, false, "Error: " ++ e)) ∧
    (∀ pre post, scheduledOutcomes caps (pre ++ d :: post) =
      scheduledOutcomes caps pre ++ process_single_pdf caps d :: scheduledOutcomes caps post) := by
  refine ⟨fun h => by simp [process_single_pdf, h],
    fun b h1 h2 h3 => by simp [process_single_pdf, h1, h2, h3],
    fun b md imgs h1 h2 h3 h4 => by simp [process_single_pdf, h1, h2, h3, h4],
    fun pre post => by simp [scheduledOutcomes]⟩

/-- Witness for C2: `descBad`'s download failure is captured as a failed
result, and its presence between `descOk` and `descSearchable` leaves their
outcomes untouched. -/
theorem per_item_failure_isolation_witness :
    process_single_pdf sampleCaps descBad = (descBad.name, false, "Error: download failed") ∧
    scheduledOutcomes sampleCaps [descOk, descBad, descSearchable] =
      scheduledOutcomes sampleCaps [descOk] ++
        process_single_pdf sampleCaps descBad :: scheduledOutcomes sampleCaps [descSearchable] :=
  ⟨(per_item_failure_isolation sampleCaps descBad "download failed").1 rfl,
    (per_item_failure_isolation sampleCaps descBad "download failed").2.2.2 [descOk]
      [descSearchable]⟩

/-- C3: a descriptor whose searchable pre-check returns true produces the
skip result and never reaches the OCR call — the OCR call count is zero and
the result does not depend on the OCR or store capability at all. -/
theorem skip_predicate_blocks_ocr (caps : Capabilities) (d : DocumentDescriptor) (b : Bytes)
    (h1 : caps.download d = .ok b) (h2 : caps.checkSearchable b = true) :
    process_single_pdf caps d = (d.name, false, "Already searchable (skipped)") ∧
    process_single_pdf_ocr_calls caps d = 0 ∧
    (∀ ocrAlt storeAlt,
      process_single_pdf { caps with ocr := ocrAlt, store := storeAlt } d =
        process_single_pdf caps d) := by
  refine ⟨by simp [process_single_pdf, h1, h2],
    by simp [process_single_pdf_ocr_calls, h1, h2],
    fun ocrAlt storeAlt => by simp [process_single_pdf, h1, h2]⟩

/-- Witness for C3 on the already-searchable sample descriptor. -/
theorem skip_predicate_blocks_ocr_witness :
    process_single_pdf sampleCaps descSearchable =
      (descSearchable.name, false, "Already searchable (skipped)") ∧
    process_single_pdf_ocr_calls sampleCaps descSearchable = 0 :=
  ⟨(skip_predicate_blocks_ocr sampleCaps descSearchable [] rfl rfl).1,
    (skip_predicate_blocks_ocr sampleCaps descSearchable [] rfl rfl).2.1⟩

/-- Sample descriptor whose OCR call fails under `sampleCaps`. -/
def descOcrFail : DocumentDescriptor := ⟨"d.pdf", "ocrfail", none⟩

/-- Sequential execution (`max_workers = 1` degenerates to this): the
futures complete in submission order, each computing `process_single_pdf`. -/
def runSequential (caps : Capabilities) (pdfs : List DocumentDescriptor) : List Result :=
  pdfs.map (process_single_pdf caps)

/-- Parallel execution under a `ThreadPoolExecutor(max_workers)`: every
submitted future deterministically computes `process_single_pdf` for its
descriptor; `order` records the completion order in which `as_completed`
yields them.  The worker-pool size affects timing only, never the computed
values. -/
def runParallel (caps : Capabilities) (maxWorkers : Nat) (pdfs : List DocumentDescriptor)
    (order : List (Fin pdfs.length)) : List Result :=
  order.map (fun i => process_single_pdf caps (pdfs.get i))

lemma runParallel_finRange (caps : Capabilities) (w : Nat) (pdfs : List DocumentDescriptor) :
    runParallel caps w pdfs (List.finRange pdfs.length) = runSequential caps pdfs := by
  show List.map (fun i => process_single_pdf caps (pdfs.get i)) (List.finRange pdfs.length) =
    List.map (process_single_pdf caps) pdfs
  conv_rhs => rw [← List.finRange_map_get pdfs]
  rw [List.map_map]
  rfl

lemma runParallel_perm (caps : Capabilities) (w : Nat) (pdfs : List DocumentDescriptor)
    (order : List (Fin pdfs.length)) (hord : order.Perm (List.finRange pdfs.length)) :
    (runParallel caps w pdfs order).Perm (runSequential caps pdfs) := by
  have h1 : (runParallel caps w pdfs order).Perm
      (runParallel caps w pdfs (List.finRange pdfs.length)) :=
    hord.map (fun i => process_single_pdf caps (pdfs.get i))
  rw [runParallel_finRange caps w pdfs] at h1
  exact h1

/-- C8: for a deterministic capability pair, running with any worker count
greater than 1 and any completion order produces the same multiset of
results — and hence the same tally — as the fully sequential run at
concurrency 1; only the order differs. -/
theorem concurrency_result_equivalence (caps : Capabilities)
    (pdfs : List DocumentDescriptor) (maxWorkers : Nat)
    (order : List (Fin pdfs.length)) (hw : 1 < maxWorkers)
    (hord : order.Perm (List.finRange pdfs.length)) :
    (runParallel caps maxWorkers pdfs order : Multiset Result) =
      (runParallel caps 1 pdfs (List.finRange pdfs.length) : Multiset Result) ∧
    runParallel caps 1 pdfs (List.finRange pdfs.length) = runSequential caps pdfs ∧
    tally (runParallel caps maxWorkers pdfs order) = tally (runSequential caps pdfs) := by
  have hperm := runParallel_perm caps maxWorkers pdfs order hord
  refine ⟨?_, runParallel_finRange caps 1 pdfs, tally_perm hperm⟩
  rw [runParallel_finRange caps 1 pdfs]
  exact Multiset.coe_eq_coe.mpr hperm

/-- Witness for C8: the four-descriptor sample batch at worker count 3 with
a reversed completion order tallies exactly like the sequential run. -/
theorem concurrency_result_equivalence_witness :
    tally (runParallel sampleCaps 3 [descOk, descBad, descSearchable, descOcrFail]
        [⟨3, by decide⟩, ⟨2, by decide⟩, ⟨1, by decide⟩, ⟨0, by decide⟩]) =
      tally (runSequential sampleCaps [descOk, descBad, descSearchable, descOcrFail]) :=
  (concurrency_result_equivalence sampleCaps [descOk, descBad, descSearchable, descOcrFail] 3
    [⟨3, by decide⟩, ⟨2, by decide⟩, ⟨1, by decide⟩, ⟨0, by decide⟩]
    (by decide) (by decide)).2.2

/-- Counterexample capability set for C5: the OCR call fails with a
description that happens to contain the word "skipped". -/
def capsSkipTrap : Capabilities where
  download := fun _ => .ok [9]
  checkSearchable := fun _ => false
  ocr := fun _ => .error "request skipped"
  store := fun _ _ _ => .ok "stored"

/-- Counterexample for C5: an `OcrError` whose description contains
"skipped" is tallied as a skip (skip counter 1, error counter 0), so a
per-item error IS sometimes tallied as a skip, contrary to the claim. -/
theorem ocr_error_tallied_as_skip :
    capsSkipTrap.ocr [9] = .error "request skipped" ∧
    process_single_pdf capsSkipTrap descOk = (descOk.name, false, "Error: request skipped") ∧
    tally [process_single_pdf capsSkipTrap descOk] = ⟨0, 1, 0⟩ := by
  refine ⟨rfl, rfl, ?_⟩
  decide

/-- C5 amended: a per-item OCR or store error is recorded as a failed
result and counted as an error exactly when its description does not
contain the substring "skipped" (case-insensitively); when it does, it is
counted as a skip.  A pre-check skip is always counted as a skip, and a
non-success result is never counted as a success. -/
theorem per_item_error_tallying (caps : Capabilities) (d : DocumentDescriptor)
    (b : Bytes) (e : String) :
    (caps.download d = .ok b → caps.checkSearchable b = true →
      tally [process_single_pdf caps d] = ⟨0, 1, 0⟩) ∧
    (caps.download d = .ok b → caps.checkSearchable b = false →
      caps.ocr b = .error e → messageHasSkipped ("Error: " ++ e) = false →
      tally [process_single_pdf caps d] = ⟨0, 0, 1⟩) ∧
    (caps.download d = .ok b → caps.checkSearchable b = false →
      caps.ocr b = .error e → messageHasSkipped ("Error: " ++ e) = true →
      tally [process_single_pdf caps d] = ⟨0, 1, 0⟩) ∧
    (∀ md imgs, caps.download d = .ok b → caps.checkSearchable b = false →
      caps.ocr b = .ok (md, imgs) → caps.store d md imgs = .error e →
      messageHasSkipped ("Error: " ++ e) = false →
      tally [process_single_pdf caps d] = ⟨0, 0, 1⟩) ∧
    (∀ md imgs, caps.download d = .ok b → caps.checkSearchable b = false →
      caps.ocr b = .ok (md, imgs) → caps.store d md imgs = .error e →
      messageHasSkipped ("Error: " ++ e) = true →
      tally [process_single_pdf caps d] = ⟨0, 1, 0⟩) ∧
    (∀ r : Result, r.2.1 = false → (tally [r]).success = 0) := by
  have hskipmsg : messageHasSkipped "Already searchable (skipped)" = true := by decide
  refine ⟨fun h1 h2 => ?_, fun h1 h2 h3 h4 => ?_, fun h1 h2 h3 h4 => ?_,
    fun md imgs h1 h2 h3 h4 h5 => ?_, fun md imgs h1 h2 h3 h4 h5 => ?_, fun r hr => ?_⟩
  · simp [process_single_pdf, h1, h2, tally, tallyStep, hskipmsg]
  · simp [process_single_pdf, h1, h2, h3, tally, tallyStep, h4]
  · simp [process_single_pdf, h1, h2, h3, tally, tallyStep, h4]
  · simp [process_single_pdf, h1, h2, h3, h4, tally, tallyStep, h5]
  · simp [process_single_pdf, h1, h2, h3, h4, tally, tallyStep, h5]
  · by_cases hm : messageHasSkipped r.2.2 = true <;>
      simp [tally, tallyStep, hr, hm]

/-- Fixture for the store-error branch of C5 amended: the store step fails
with a description containing "skipped". -/
def capsStoreSkipTrap : Capabilities where
  download := fun _ => .ok [1]
  checkSearchable := fun _ => false
  ocr := fun _ => .ok ("md", [])
  store := fun _ _ _ => .error "upload skipped"

/-- Witness for C5 amended: `descOcrFail`'s OCR error ("ocr down", which
does not contain "skipped") is tallied as an error, the searchable
descriptor's skip is tallied as a skip, and a store error whose description
contains "skipped" is tallied as a skip. -/
theorem per_item_error_tallying_witness :
    tally [process_single_pdf sampleCaps descOcrFail] = ⟨0, 0, 1⟩ ∧
    tally [process_single_pdf sampleCaps descSearchable] = ⟨0, 1, 0⟩ ∧
    tally [process_single_pdf capsStoreSkipTrap descOk] = ⟨0, 1, 0⟩ :=
  ⟨(per_item_error_tallying sampleCaps descOcrFail [9] "ocr down").2.1 rfl rfl rfl (by decide),
    (per_item_error_tallying sampleCaps descSearchable [] "ocr down").1 rfl rfl,
    (per_item_error_tallying capsStoreSkipTrap descOk [1] "upload skipped").2.2.2.2.1
      "md" [] rfl rfl rfl rfl (by decide)⟩

/-- Total number of OCR invocations across a batch. -/
def batch_ocr_calls (caps : Capabilities) (pdfs : List DocumentDescriptor) : Nat :=
  (pdfs.map (process_single_pdf_ocr_calls caps)).sum

/-- Total number of store-step invocations across a batch. -/
def batch_store_calls (caps : Capabilities) (pdfs : List DocumentDescriptor) : Nat :=
  (pdfs.map (process_single_pdf_store_calls caps)).sum

/-- C6: the empty batch produces no outcomes, a tally of all zeros, an
estimated cost of 0, and performs no OCR and no store invocation. -/
theorem empty_batch_trivial_summary (caps : Capabilities) :
    scheduledOutcomes caps [] = [] ∧
    tally (scheduledOutcomes caps []) = ⟨0, 0, 0⟩ ∧
    estimatedCost (tally (scheduledOutcomes caps [])) = 0 ∧
    batch_ocr_calls caps [] = 0 ∧
    batch_store_calls caps [] = 0 := by
  refine ⟨rfl, rfl, ?_, rfl, rfl⟩
  simp [estimatedCost, tally, tallyStep, scheduledOutcomes]

/-- C7: the estimated cost of a completed run is the success count times
the fixed unit price 1/1000, it depends on nothing but the success count
(in particular not on any page count), and a success count of 7 yields a
cost of 7/1000. -/
theorem cost_is_unit_price_times_successes (caps : Capabilities)
    (pdfs : List DocumentDescriptor) (res : List Result)
    (h : IsCompletionOrder caps pdfs res) :
    estimatedCost (tally res) =
      ((tally (scheduledOutcomes caps pdfs)).success : ℚ) * (1 / 1000) ∧
    (∀ c1 c2 : Counts, c1.success = c2.success → estimatedCost c1 = estimatedCost c2) ∧
    ((tally res).success = 7 → estimatedCost (tally res) = 7 / 1000) := by
  refine ⟨?_, fun c1 c2 hc => by simp [estimatedCost, hc], fun h7 => ?_⟩
  · rw [tally_perm h]
    rfl
  · rw [estimatedCost, h7]
    norm_num

/-- Witness for C7: a batch of seven successful descriptors has estimated
cost 7/1000. -/
theorem cost_is_unit_price_times_successes_witness :
    (tally (scheduledOutcomes sampleCaps (List.replicate 7 descOk))).success = 7 ∧
    estimatedCost (tally (scheduledOutcomes sampleCaps (List.replicate 7 descOk))) = 7 / 1000 :=
  ⟨by decide,
    (cost_is_unit_price_times_successes sampleCaps (List.replicate 7 descOk)
      (scheduledOutcomes sampleCaps (List.replicate 7 descOk)) (List.Perm.refl _)).2.2
      (by decide)⟩

/-- Exit code of `main` in `gdrive_batch_ocr.py` (lines 358-441), given
whether `MISTRAL_API_KEY` is set and which PDFs `find_pdfs` returns:
a missing key hits `sys.exit(1)`; an empty PDF list prints
"No PDF files found" and returns (exit 0); otherwise the batch runs and
the process exits 0. -/
def gdrive_main_exit (hasApiKey : Bool) (pdfs : List DocumentDescriptor) : Nat :=
  if !hasApiKey then 1
  else if pdfs.isEmpty then 0
  else 0

/-- Exit code of `main`/`batch_ocr` in `batch_ocr.py` (lines 62-130), given
the `sys.argv` length, whether the input path is a directory, the globbed
PDF list, and whether `MISTRAL_API_KEY` is set: too few arguments or a
non-directory input hit `sys.exit(1)`; an empty PDF list prints and returns
(exit 0) BEFORE the key check; a missing key then raises an uncaught
`ValueError` (exit 1); otherwise exit 0. -/
def batch_ocr_main_exit (argCount : Nat) (inputIsDir : Bool) (pdfs : List String)
    (hasApiKey : Bool) : Nat :=
  if argCount < 2 then 1
  else if !inputIsDir then 1
  else if pdfs.isEmpty then 0
  else if !hasApiKey then 1
  else 0

/-- Exit code of `main` in `check_pdf_searchable.py` (lines 49-84), given
the `sys.argv` length and the collected PDF list: too few arguments or an
empty PDF list hit `sys.exit(1)`; otherwise exit 0. -/
def check_pdf_main_exit (argCount : Nat) (pdfs : List String) : Nat :=
  if argCount < 2 then 1
  else if pdfs.isEmpty then 1
  else 0

/-- Counterexample for C4: with the API key present and no input documents
found, both `gdrive_batch_ocr.py` and `batch_ocr.py` exit 0, not non-zero. -/
theorem empty_input_exits_zero :
    gdrive_main_exit true [] = 0 ∧ batch_ocr_main_exit 2 true [] true = 0 := by
  decide

/-- C4 amended: `check_pdf_searchable.py` exits non-zero when no input
documents are found, but `gdrive_batch_ocr.py` and `batch_ocr.py` exit zero
in that case; a missing OCR API key exits non-zero in
`gdrive_batch_ocr.py` always, and in `batch_ocr.py` whenever at least one
PDF was found (its empty-input return precedes the key check). -/
theorem cli_exit_codes (pdfs : List DocumentDescriptor) (files : List String) :
    gdrive_main_exit false pdfs = 1 ∧
    gdrive_main_exit true [] = 0 ∧
    (files ≠ [] → batch_ocr_main_exit 2 true files false = 1) ∧
    batch_ocr_main_exit 2 true [] false = 0 ∧
    check_pdf_main_exit 2 [] = 1 := by
  refine ⟨rfl, rfl, fun hne => ?_, rfl, rfl⟩
  cases files with
  | nil => exact absurd rfl hne
  | cons f fs => rfl

/-- Witness for C4 amended, on a one-element file list. -/
theorem cli_exit_codes_witness :
    gdrive_main_exit false [descOk] = 1 ∧ batch_ocr_main_exit 2 true ["a.pdf"] false = 1 :=
  ⟨(cli_exit_codes [descOk] ["a.pdf"]).1,
    (cli_exit_codes [descOk] ["a.pdf"]).2.2.1 (by decide)⟩

/-- Response of the Mistral chat endpoint as consumed by `mistral_ocr.py`:
the markdown content plus the optional `images` attribute (absent or
`None` is modelled as `none`). -/
structure OcrResponse where
  content : String
  images : Option (List (String × String))

/-- External collaborators of `mistral_ocr.py`: the environment's API key,
the `client.chat.complete` call and the `client.batch.jobs.create` call. -/
structure MistralEnv where
  apiKey : Option String
  chatComplete : String → Except String OcrResponse
  batchJobsCreate : Except String String

/-- The base64 alphabet. -/
def base64Table : List Char :=
  "ABCDEFGHIJKLMNOPQRSTUVWXYZabcdefghijklmnopqrstuvwxyz0123456789+/".toList

/-- One base64 digit. -/
def base64Digit (n : Nat) : Char := base64Table.getD n '='

/-- Standard base64 encoding of a byte list, with `=` padding. -/
def base64Encode : List Nat → List Char
  | [] => []
  | [a] => [base64Digit (a / 4 % 64), base64Digit (a % 4 * 16), '=', '=']
  | [a, b] => [base64Digit (a / 4 % 64), base64Digit ((a % 4 * 16 + b / 16) % 64),
      base64Digit (b % 16 * 4), '=']
  | a :: b :: c :: rest =>
    base64Digit (a / 4 % 64) :: base64Digit ((a % 4 * 16 + b / 16) % 64) ::
      base64Digit ((b % 16 * 4 + c / 64) % 64) :: base64Digit (c % 64) :: base64Encode rest

/-- `encode_pdf` of `mistral_ocr.py`: base64-encode the file's bytes. -/
def encode_pdf (pdfBytes : Bytes) : String := String.mk (base64Encode pdfBytes)

/-- `ocr_pdf_sync` of `mistral_ocr.py` (lines 32-72): check the key, encode
the PDF, call the chat endpoint, and optionally inline the returned images
into the markdown by textual replacement. -/
def ocr_pdf_sync (env : MistralEnv) (pdfBytes : Bytes) (inline_images : Bool) :
    Except String String :=
  match env.apiKey with
  | none => .error "MISTRAL_API_KEY environment variable not set"
  | some _ =>
    let pdf_base64 := encode_pdf pdfBytes
    match env.chatComplete pdf_base64 with
    | .error e => .error e
    | .ok response =>
      let markdown := response.content
      if inline_images then
        match response.images with
        | none => .ok markdown
        | some imgs =>
          .ok (imgs.foldl (fun md p =>
            md.replace ("![" ++ p.1 ++ "](" ++ p.1 ++ ")")
              ("![" ++ p.1 ++ "](data:image/jpeg;base64," ++ p.2 ++ ")")) markdown)
      else .ok markdown

/-- `ocr_pdf_batch` of `mistral_ocr.py` (lines 75-97): check the key,
encode the PDF, create a batch job, then print a notice and fall back to
`ocr_pdf_sync`. -/
def ocr_pdf_batch (env : MistralEnv) (pdfBytes : Bytes) (inline_images : Bool) :
    Except String String :=
  match env.apiKey with
  | none => .error "MISTRAL_API_KEY environment variable not set"
  | some _ =>
    let pdf_base64 := encode_pdf pdfBytes
    match env.batchJobsCreate with
    | .error e => .error e
    | .ok batch_job => ocr_pdf_sync env pdfBytes inline_images

/-- C9: whenever the batch-job creation call returns (rather than raising),
`ocr_pdf_batch` returns exactly the markdown `ocr_pdf_sync` returns for the
same input and inline-images setting. -/
theorem batch_falls_back_to_sync (env : MistralEnv) (pdfBytes : Bytes)
    (inline_images : Bool) (j : String) (hjob : env.batchJobsCreate = .ok j) :
    ocr_pdf_batch env pdfBytes inline_images = ocr_pdf_sync env pdfBytes inline_images := by
  cases hk : env.apiKey with
  | none => simp [ocr_pdf_batch, ocr_pdf_sync, hk]
  | some key => simp [ocr_pdf_batch, hk, hjob]

/-- Sample environment for the mistral script model. -/
def sampleEnv : MistralEnv where
  apiKey := some "k"
  chatComplete := fun _ => .ok ⟨"# doc\n![img0.jpeg](img0.jpeg)", some [("img0.jpeg", "QUJD")]⟩
  batchJobsCreate := .ok "job-1"

/-- Witness for C9 on a concrete environment and input. -/
theorem batch_falls_back_to_sync_witness :
    ocr_pdf_batch sampleEnv [1, 2] true = ocr_pdf_sync sampleEnv [1, 2] true :=
  batch_falls_back_to_sync sampleEnv [1, 2] true "job-1" rfl

/-- A parsed PDF as seen through pypdfium2: the extractable text of each
page, in page order. -/
structure PdfDoc where
  pages : List String

/-- Python's `text.strip()`: drop leading and trailing whitespace. -/
def stripChars (s : List Char) : List Char :=
  ((s.dropWhile Char.isWhitespace).reverse.dropWhile Char.isWhitespace).reverse

/-- `len(text.strip())` for one page's extracted text. -/
def strippedLen (t : String) : Nat := (stripChars t.toList).length

/-- `is_searchable_pdf` of `gdrive_batch_ocr.py` (lines 100-127): parse the
PDF (any exception yields `False`), sum the stripped text lengths of the
first `min(3, pageCount)` pages, and compare against the 50-character
threshold.  The pypdfium2 parser is the injected `parsePdf`. -/
def is_searchable_pdf (parsePdf : Bytes → Except String PdfDoc) (pdfBytes : Bytes) : Bool :=
  match parsePdf pdfBytes with
  | .error _ => false
  | .ok pdf =>
    let pages_to_check : Nat := min 3 pdf.pages.length
    let total_chars : Nat := ((pdf.pages.take pages_to_check).map strippedLen).sum
    decide (50 ≤ total_chars)

/-- Specification-side character count: total stripped text length over the
first three pages (all pages when fewer). -/
def firstPagesCharCount (pdf : PdfDoc) : Nat :=
  ((pdf.pages.take 3).map strippedLen).sum

lemma take_min_three {α : Type} (l : List α) : l.take (min 3 l.length) = l.take 3 := by
  rcases le_total 3 l.length with h | h
  · rw [min_eq_left h]
  · rw [min_eq_right h, List.take_length, List.take_of_length_le h]

/-- C10: the searchable-text heuristic classifies a readable PDF as
searchable exactly when the stripped character count over the first
`min(3, pageCount)` pages reaches 50; two PDFs agreeing on their first
three pages are classified identically (text after page 3 never matters),
and a parse failure yields `false` rather than an error. -/
theorem searchable_heuristic_first_three_pages
    (parsePdf : Bytes → Except String PdfDoc) (pdfBytes : Bytes) :
    (∀ e, parsePdf pdfBytes = .error e → is_searchable_pdf parsePdf pdfBytes = false) ∧
    (∀ pdf, parsePdf pdfBytes = .ok pdf →
      (is_searchable_pdf parsePdf pdfBytes = true ↔ 50 ≤ firstPagesCharCount pdf)) ∧
    (∀ parse2 bytes2 pdf pdf2, parsePdf pdfBytes = .ok pdf → parse2 bytes2 = .ok pdf2 →
      pdf.pages.take 3 = pdf2.pages.take 3 →
      is_searchable_pdf parsePdf pdfBytes = is_searchable_pdf parse2 bytes2) := by
  refine ⟨fun e he => by simp [is_searchable_pdf, he], fun pdf hp => ?_,
    fun parse2 bytes2 pdf pdf2 hp hp2 htake => ?_⟩
  · rw [is_searchable_pdf, hp]
    simp only [take_min_three]
    exact decide_eq_true_iff
  · rw [is_searchable_pdf, is_searchable_pdf, hp, hp2]
    simp only [take_min_three, htake]

/-- Sample parsed PDF: 50 characters on page one, more text on page four. -/
def samplePdfDoc : PdfDoc := ⟨[String.mk (List.replicate 50 'a'), "", "", "plenty of text"]⟩

/-- Witness for C10: the sample document is classified searchable. -/
theorem searchable_heuristic_first_three_pages_witness :
    is_searchable_pdf (fun _ => .ok samplePdfDoc) [] = true :=
  ((searchable_heuristic_first_three_pages (fun _ => .ok samplePdfDoc) []).2.1
    samplePdfDoc rfl).mpr (by decide)

end BatchOcr
